import Mathlib

/-!
Shallow embedding of `homework.py` (a periodic homework-status polling bot)
and proofs about its behaviour.

The Python program manipulates JSON-like data (the API response envelope and
status records), so we model Python/JSON values with the inductive type
`Value`.  Python dictionaries are association lists; `dict.get(k)` returns the
Python `None` object when the key is absent, which we model by `Value.vnull`.
Raised Python exceptions are modelled by the `PyError` type and fallible code
returns `Except PyError _`.
-/

/-- JSON-like Python values: `None`, integers, strings, lists, dicts. -/
inductive Value where
  | vnull : Value
  | vint : Int → Value
  | vstr : String → Value
  | vlist : List Value → Value
  | vdict : List (String × Value) → Value

/-- Python exceptions raised by the program.
`wrongStatusError` models the `WrongStatusError` class imported from the
repository module `exceptions` (that module is not part of the sources here;
modelled from the spec as a plain distinguishable exception class carrying its
message).  The other constructors model the builtin `TypeError`, `KeyError`,
`AttributeError` and `UnboundLocalError`, and `httpError` models the
`requests.exceptions.HTTPError` raised by `response.raise_for_status()`,
carrying the HTTP status code. -/
inductive PyError where
  | typeError : String → PyError
  | keyError : String → PyError
  | wrongStatusError : String → PyError
  | httpError : Nat → PyError
  | unboundLocalError : String → PyError
  | attributeError : String → PyError
deriving DecidableEq

/-- First value bound to a key in an association list (Python dicts have
unique keys; lookup order is irrelevant for genuine dicts). -/
def lookupKey : List (String × Value) → String → Option Value
  | [], _ => none
  | (k, v) :: rest, key => if k = key then some v else lookupKey rest key

/-- Python `d.get(key)`: the stored value, or the `None` object when the key
is absent. -/
def pyGet (d : List (String × Value)) (key : String) : Value :=
  (lookupKey d key).getD .vnull

/-- Python `key in d`: membership test against the dict keys. -/
def hasKey (d : List (String × Value)) (key : String) : Bool :=
  (lookupKey d key).isSome

/-- Python `repr` of a value (used by `str` on containers; the string case is
wrapped in quote characters as CPython does). -/
def pyRepr : Value → String
  | .vnull => "None"
  | .vint n => toString n
  | .vstr s => "\x27" ++ s ++ "\x27"
  | .vlist xs => "[" ++ String.intercalate ", " (pyReprList xs) ++ "]"
  | .vdict d => "\x7b" ++ String.intercalate ", " (pyReprDict d) ++ "\x7d"
where
  pyReprList : List Value → List String
    | [] => []
    | v :: vs => pyRepr v :: pyReprList vs
  pyReprDict : List (String × Value) → List String
    | [] => []
    | (k, v) :: rest => ("\x27" ++ k ++ "\x27: " ++ pyRepr v) :: pyReprDict rest

/-- Python `str` / f-string rendering of a value: a string renders as itself,
everything else as its `repr` (in particular `None` renders as `"None"`). -/
def pyStr : Value → String
  | .vstr s => s
  | v => pyRepr v

/-- `HOMEWORK_VERDICTS` (homework.py lines 24-28): static mapping from the
three documented status strings to fixed Russian verdict sentences. -/
def HOMEWORK_VERDICTS : List (String × String) :=
  [("approved", "Работа проверена: ревьюеру всё понравилось. Ура!"),
   ("reviewing", "Работа взята на проверку ревьюером."),
   ("rejected", "Работа проверена: у ревьюера есть замечания.")]

/-- Lookup in `HOMEWORK_VERDICTS` (Python `HOMEWORK_VERDICTS.get(s)`). -/
def lookupVerdict (s : String) : Option String :=
  match HOMEWORK_VERDICTS.find? (fun p => p.1 = s) with
  | some p => some p.2
  | none => none

/-- The generator expression `all(key for key in ('current_date', 'homeworks'))`
from `check_response` (homework.py line 122).  It tests the truthiness of the
two literal key strings themselves (non-empty strings are truthy), not their
membership in the response mapping, so it is identically `true`. -/
def vacuousKeysCheck : Bool :=
  ["current_date", "homeworks"].all (fun key => !key.isEmpty)

/-- `check_response` (homework.py lines 112-127).  Succeeds exactly when the
input is a dict, the vacuous key check passes, and `response.get('homeworks')`
is a list; then it returns that list.  Otherwise it raises
`TypeError('Структура данных не соответствует ожиданиям')`. -/
def check_response : Value → Except PyError (List Value)
  | .vdict d =>
    if vacuousKeysCheck then
      match pyGet d "homeworks" with
      | .vlist hs => .ok hs
      | _ => .error (.typeError "Структура данных не соответствует ожиданиям")
    else .error (.typeError "Структура данных не соответствует ожиданиям")
  | _ => .error (.typeError "Структура данных не соответствует ожиданиям")

/-- `parse_status` (homework.py lines 130-149).
`homework.get('status') in HOMEWORK_VERDICTS` tests dict-key membership, so it
holds only for a string value equal to one of the three keys; on an unhashable
value (list/dict) CPython raises `TypeError`.  When the status is known, the
name is looked up only by key presence (`'homework_name' in homework`) and the
f-string renders the value with `pyStr`; with the key absent a `KeyError` is
raised.  A `None`/absent status raises `WrongStatusError('Статус None')` after
a debug log; any other hashable non-key value raises
`WrongStatusError('Статус не документирован')`. -/
def parse_status : Value → Except PyError String
  | .vdict homework =>
    match pyGet homework "status" with
    | .vstr s =>
      match lookupVerdict s with
      | some verdict =>
        if hasKey homework "homework_name" then
          .ok ("Изменился статус проверки работы \"" ++
               pyStr (pyGet homework "homework_name") ++ "\". " ++ verdict)
        else .error (.keyError "Ключ \"homework_name\" отсутствует")
      | none => .error (.wrongStatusError "Статус не документирован")
    | .vnull => .error (.wrongStatusError "Статус None")
    | .vint _ => .error (.wrongStatusError "Статус не документирован")
    | .vlist _ => .error (.typeError "unhashable type: \x27list\x27")
    | .vdict _ => .error (.typeError "unhashable type: \x27dict\x27")
  | _ => .error (.attributeError "\x27object\x27 has no attribute \x27get\x27")

/-- Outcome of the external HTTP call made by `requests.get`: either the call
itself raises `requests.exceptions.RequestException` (connection failure,
timeout), or a response arrives with a status code and a parsed JSON body. -/
inductive HttpOutcome where
  | exn : HttpOutcome
  | response : Nat → Value → HttpOutcome

/-- `response.raise_for_status()` semantics from the `requests` library:
raises `HTTPError` carrying the status code exactly for 4xx/5xx codes and is a
no-op otherwise. -/
def raise_for_status (code : Nat) : Except PyError Unit :=
  if 400 ≤ code ∧ code < 600 then .error (.httpError code) else .ok ()

/-- `get_api_answer` (homework.py lines 76-109) as a function of the HTTP
outcome.  When `requests.get` raises, the handler at lines 89-99 evaluates
`response.status_code` while the local `response` was never assigned, so the
call raises `UnboundLocalError` for `response` (the intended re-raise of
`RequestException` is unreachable).  Otherwise, a status code other than 200
is logged and passed through `raise_for_status`; if that does not raise (all
non-4xx/5xx codes) the parsed body is returned. -/
def get_api_answer : HttpOutcome → Except PyError Value
  | .exn => .error (.unboundLocalError "response")
  | .response code body =>
    if code ≠ 200 then
      match raise_for_status code with
      | .error e => .error e
      | .ok _ => .ok body
    else .ok body

/-- Python `response['current_date']`-style dict subscription: `KeyError` on a
missing key, `TypeError` on a non-dict. -/
def pySubscript : Value → String → Except PyError Value
  | .vdict d, key =>
    match lookupKey d key with
    | some v => .ok v
    | none => .error (.keyError key)
  | _, _ => .error (.typeError "object is not subscriptable")

/-- State carried by `main`'s loop (homework.py lines 156-175) across
iterations: the query cursor `timestamp` (a `Value`, since the code assigns it
`response['current_date']` unchecked), and the `error_message` variable.
`error_message` starts as the empty string `''` and is later assigned caught
exception *objects*; Python compares them by object identity, which we model
by tagging each raised exception with a fresh allocation id (`nextId`).
`none` models the initial `''`. -/
structure LoopState where
  timestamp : Value
  error_message : Option (Nat × PyError)
  nextId : Nat

/-- Loop state at startup: `timestamp = int(time.time())`, `error_message = ''`. -/
def initState (t0 : Int) : LoopState :=
  { timestamp := .vint t0, error_message := none, nextId := 0 }

/-- Python `error != error_message` (homework.py line 170): a fresh exception
object compared against the empty string is unequal, and compared against a
previously stored exception object it is unequal unless it is the *same*
object (exceptions define no `__eq__`, so `!=` falls back to identity). -/
def pyNeqPrev (curId : Nat) : Option (Nat × PyError) → Bool
  | none => true
  | some (prevId, _) => curId != prevId

/-- Python `str(error)` used by the f-string at line 171.  `KeyError` renders
its key argument in repr quotes; the `HTTPError` text produced by `requests`
is abbreviated to the status code (no claim depends on its exact wording). -/
def pyFormatError : PyError → String
  | .typeError m => m
  | .keyError k => "\x27" ++ k ++ "\x27"
  | .wrongStatusError m => m
  | .httpError code => toString code ++ " Error"
  | .unboundLocalError name =>
    "local variable \x27" ++ name ++ "\x27 referenced before assignment"
  | .attributeError m => m

/-- The `try` block of one loop iteration (homework.py lines 159-168).
Returns the new value of `timestamp` together with the texts passed to
`send_message` (the Notifier; its own delivery failures are swallowed inside
`send_message`, lines 61-73, so they never affect control flow), or the raised
exception together with the texts already sent before it was raised.
`parse_status` is applied to `response.get('homeworks')[0]`, which is the head
of the exact list returned by `check_response`; the cursor assignment
`timestamp = response['current_date']` happens after the send and raises
`KeyError` when the envelope has no `current_date` key. -/
def tryBody (st : LoopState) (outcome : HttpOutcome) :
    Except (PyError × List String) (Value × List String) :=
  match get_api_answer outcome with
  | .error e => .error (e, [])
  | .ok response =>
    match check_response response with
    | .error e => .error (e, [])
    | .ok homeworks =>
      match homeworks with
      | [] => .ok (st.timestamp, [])
      | hw :: _ =>
        match parse_status hw with
        | .error e => .error (e, [])
        | .ok text =>
          match pySubscript response "current_date" with
          | .ok v => .ok (v, [text])
          | .error e => .error (e, [text])

/-- One iteration of `main`'s `while True` loop (homework.py lines 158-175):
run the `try` block; on an exception, if `error != error_message` holds, send
`f'Сбой в работе программы: {error}'` and store the exception object in
`error_message`.  Returns the state for the next iteration and the list of
texts handed to the Notifier during this iteration.  (`time.sleep` has no
effect on the state and is not modelled.) -/
def mainStep (st : LoopState) (outcome : HttpOutcome) : LoopState × List String :=
  match tryBody st outcome with
  | .ok (newTs, msgs) => ({ st with timestamp := newTs }, msgs)
  | .error (e, msgs) =>
    if pyNeqPrev st.nextId st.error_message then
      ({ timestamp := st.timestamp, error_message := some (st.nextId, e),
         nextId := st.nextId + 1 },
       msgs ++ ["Сбой в работе программы: " ++ pyFormatError e])
    else
      ({ st with nextId := st.nextId + 1 }, msgs)

/-- `true` exactly on dicts (Python `isinstance(x, dict)`). -/
def Value.isDict : Value → Bool
  | .vdict _ => true
  | _ => false

/-- `true` exactly on lists (Python `isinstance(x, list)`). -/
def Value.isList : Value → Bool
  | .vlist _ => true
  | _ => false

/-- The `TypeError` message raised by `check_response` on any failure. -/
def schemaErrorMsg : String := "Структура данных не соответствует ожиданиям"

/-- C1: the claim says `check_response` signals a schema error on a mapping
whose `homeworks` value is a sequence but that lacks the `current_date` key.
The code instead accepts such a mapping: the key check at line 122 tests the
truthiness of the literal key strings, never their membership, so the mapping
`\x7b'homeworks': []\x7d` — with no `current_date` key — passes validation
and the homeworks list is returned. -/
theorem c1_missing_current_date_passes_validation :
    lookupKey [("homeworks", Value.vlist [])] "current_date" = none ∧
    vacuousKeysCheck = true ∧
    check_response (.vdict [("homeworks", .vlist [])]) = .ok [] :=
  ⟨rfl, rfl, rfl⟩

/-- C4: the claim says a failing network call yields a recognizable
transport-level error and a non-200 status yields a distinct failure carrying
the status code, never a return value.  In the code, the `except` handler at
lines 89-99 evaluates `response.status_code` while `response` was never
assigned, so a connection failure raises `UnboundLocalError` instead of the
intended `RequestException`; a 404 does produce an `HTTPError` carrying the
code via `raise_for_status`, but a non-200 code outside 400-599 (e.g. 204)
passes `raise_for_status` silently and the body is returned. -/
theorem c4_transport_failure_behaviour :
    get_api_answer .exn = .error (.unboundLocalError "response") ∧
    get_api_answer (.response 404 .vnull) = .error (.httpError 404) ∧
    get_api_answer (.response 204 (.vdict [])) = .ok (.vdict []) :=
  ⟨rfl, rfl, rfl⟩

/-- C3: the claim says an error notification is suppressed when the formatted
error text is identical to the immediately preceding notified one.  The code
compares the caught exception *object* against the stored previous object
(`error != error_message`, line 170), and a freshly raised exception is never
identical to it, so two consecutive iterations failing with the very same
`TypeError` text are both notified: nothing is ever suppressed. -/
theorem c3_identical_error_text_renotified :
    (mainStep (initState 0) (.response 200 (.vlist []))).2 =
      ["Сбой в работе программы: Структура данных не соответствует ожиданиям"] ∧
    (mainStep (mainStep (initState 0) (.response 200 (.vlist []))).1
        (.response 200 (.vlist []))).2 =
      ["Сбой в работе программы: Структура данных не соответствует ожиданиям"] :=
  ⟨rfl, rfl⟩

/-- C7: `check_response` raises its `TypeError` on every non-mapping input,
on every mapping without a `homeworks` key (its `.get` then yields `None`,
which is not a list), and on every mapping whose `homeworks` value is not a
list; on success it returns the stored `homeworks` list itself, unchanged. -/
theorem c7_check_response_contract :
    (∀ v : Value, v.isDict = false →
       check_response v = .error (.typeError schemaErrorMsg)) ∧
    (∀ d, lookupKey d "homeworks" = none →
       check_response (.vdict d) = .error (.typeError schemaErrorMsg)) ∧
    (∀ d v, lookupKey d "homeworks" = some v → v.isList = false →
       check_response (.vdict d) = .error (.typeError schemaErrorMsg)) ∧
    (∀ d hs, lookupKey d "homeworks" = some (.vlist hs) →
       check_response (.vdict d) = .ok hs) := by
  refine ⟨?_, ?_, ?_, ?_⟩
  · intro v h
    cases v <;> simp_all [check_response, Value.isDict, schemaErrorMsg]
  · intro d h
    simp [check_response, show vacuousKeysCheck = true from rfl, pyGet, h,
      schemaErrorMsg]
  · intro d v h1 h2
    cases v <;>
      simp_all [check_response, show vacuousKeysCheck = true from rfl, pyGet,
        Value.isList, schemaErrorMsg]
  · intro d hs h
    simp [check_response, show vacuousKeysCheck = true from rfl, pyGet, h]

/-- Witness for C7: the four parts of the contract applied to concrete
inputs — a plain string, an empty mapping, a mapping with a string-valued
`homeworks`, and a well-formed envelope. -/
theorem c7_check_response_contract_witness :
    check_response (.vstr "oops") = .error (.typeError schemaErrorMsg) ∧
    check_response (.vdict []) = .error (.typeError schemaErrorMsg) ∧
    check_response (.vdict [("homeworks", .vstr "no")]) =
      .error (.typeError schemaErrorMsg) ∧
    check_response (.vdict [("current_date", .vint 3),
      ("homeworks", .vlist [.vnull, .vint 1])]) = .ok [.vnull, .vint 1] :=
  ⟨c7_check_response_contract.1 (.vstr "oops") rfl,
   c7_check_response_contract.2.1 [] rfl,
   c7_check_response_contract.2.2.1 [("homeworks", .vstr "no")] (.vstr "no")
     rfl rfl,
   c7_check_response_contract.2.2.2 [("current_date", .vint 3),
     ("homeworks", .vlist [.vnull, .vint 1])] [.vnull, .vint 1] rfl⟩

/-- Envelope whose only status record carries a `null` status. -/
def envNullStatus : Value :=
  .vdict [("current_date", .vint 2),
          ("homeworks", .vlist [.vdict [("status", .vnull)]])]

/-- C2 counterexample: the claim says the loop treats the `null`-status error
as benign and triggers no error notification.  On an envelope whose first
record has `status = None`, the loop's generic `except` handler does notify:
the Notifier receives `'Сбой в работе программы: Статус None'`. -/
theorem c2_null_status_is_notified :
    parse_status (.vdict [("status", Value.vnull)]) =
      .error (.wrongStatusError "Статус None") ∧
    (mainStep (initState 0) (.response 200 envNullStatus)).2 =
      ["Сбой в работе программы: Статус None"] ∧
    (mainStep (initState 0) (.response 200 envNullStatus)).2 ≠ [] :=
  ⟨rfl, rfl, by decide⟩

/-- C2 amended: on a record whose `status` is absent or `None`, `parse_status`
raises `WrongStatusError('Статус None')` (after a debug log); `main` has no
special handling for it, so the loop catches it like any other error and sends
the error notification whenever the `error != error_message` test passes
(which it always does, the comparison being by object identity). -/
theorem c2_null_status_raises_and_loop_notifies :
    (∀ d, pyGet d "status" = Value.vnull →
       parse_status (.vdict d) = .error (.wrongStatusError "Статус None")) ∧
    (∀ (st : LoopState) (outcome : HttpOutcome) (body : Value)
       (hw : Value) (tl : List Value),
       get_api_answer outcome = .ok body →
       check_response body = .ok (hw :: tl) →
       parse_status hw = .error (.wrongStatusError "Статус None") →
       pyNeqPrev st.nextId st.error_message = true →
       (mainStep st outcome).2 = ["Сбой в работе программы: Статус None"]) := by
  constructor
  · intro d hd
    simp [parse_status, hd]
  · intro st outcome body hw tl hG hC hP hne
    simp [mainStep, tryBody, hG, hC, hP, hne, pyFormatError]

/-- Witness for C2's amended statement: both parts applied to the concrete
record `\x7b'status': None\x7d` and the concrete envelope `envNullStatus`. -/
theorem c2_null_status_raises_and_loop_notifies_witness :
    parse_status (.vdict [("status", Value.vnull)]) =
      .error (.wrongStatusError "Статус None") ∧
    (mainStep (initState 5) (.response 200 envNullStatus)).2 =
      ["Сбой в работе программы: Статус None"] :=
  ⟨c2_null_status_raises_and_loop_notifies.1 [("status", Value.vnull)] rfl,
   c2_null_status_raises_and_loop_notifies.2 (initState 5)
     (.response 200 envNullStatus) envNullStatus
     (.vdict [("status", .vnull)]) [] rfl rfl rfl rfl⟩

/-- C5 counterexample: the claim gives the exact template
`Status of review for "..." changed. ...`; the code's template is the Russian
sentence `Изменился статус проверки работы "..."`, so on the spec's own
example record the returned string is not the claimed one. -/
theorem c5_template_is_not_the_english_sentence :
    parse_status (.vdict [("status", .vstr "approved"),
        ("homework_name", .vstr "Project X")]) =
      .ok "Изменился статус проверки работы \"Project X\". Работа проверена: ревьюеру всё понравилось. Ура!" ∧
    parse_status (.vdict [("status", .vstr "approved"),
        ("homework_name", .vstr "Project X")]) ≠
      .ok "Status of review for \"Project X\" changed. Работа проверена: ревьюеру всё понравилось. Ура!" :=
  ⟨rfl, fun h => absurd (Except.ok.inj h) (by decide)⟩

/-- C5 amended: for any record whose `status` is one of the three known
values and whose `homework_name` is present with a string value, `parse_status`
returns exactly `Изменился статус проверки работы "{name}". {verdict}` with
the verdict looked up in `HOMEWORK_VERDICTS`; in particular the result
contains the exact homework name and the exact verdict text. -/
theorem c5_known_status_message (d : List (String × Value))
    (s verdict name : String)
    (hstat : pyGet d "status" = .vstr s)
    (hv : lookupVerdict s = some verdict)
    (hkey : hasKey d "homework_name" = true)
    (hname : pyGet d "homework_name" = .vstr name) :
    parse_status (.vdict d) =
      .ok ("Изменился статус проверки работы \"" ++ name ++ "\". " ++ verdict) ∧
    (∃ l r, "Изменился статус проверки работы \"" ++ name ++ "\". " ++ verdict =
        l ++ name ++ r) ∧
    (∃ l r, "Изменился статус проверки работы \"" ++ name ++ "\". " ++ verdict =
        l ++ verdict ++ r) := by
  refine ⟨?_,
    ⟨"Изменился статус проверки работы \"", "\". " ++ verdict, ?_⟩,
    ⟨"Изменился статус проверки работы \"" ++ name ++ "\". ", "", ?_⟩⟩
  · simp [parse_status, hstat, hv, hkey, hname, pyStr]
  · rw [String.append_assoc]
  · rw [String.append_empty]

/-- Witness for C5's amended statement: the approved status on the spec's
example record `\x7b'status': 'approved', 'homework_name': 'Project X'\x7d`. -/
theorem c5_known_status_message_witness :
    parse_status (.vdict [("status", .vstr "approved"),
        ("homework_name", .vstr "Project X")]) =
      .ok ("Изменился статус проверки работы \"" ++ "Project X" ++ "\". " ++
           "Работа проверена: ревьюеру всё понравилось. Ура!") ∧
    (∃ l r, "Изменился статус проверки работы \"" ++ "Project X" ++ "\". " ++
        "Работа проверена: ревьюеру всё понравилось. Ура!" =
        l ++ "Project X" ++ r) ∧
    (∃ l r, "Изменился статус проверки работы \"" ++ "Project X" ++ "\". " ++
        "Работа проверена: ревьюеру всё понравилось. Ура!" =
        l ++ "Работа проверена: ревьюеру всё понравилось. Ура!" ++ r) :=
  c5_known_status_message
    [("status", .vstr "approved"), ("homework_name", .vstr "Project X")]
    "approved" "Работа проверена: ревьюеру всё понравилось. Ура!" "Project X"
    rfl rfl rfl rfl

/-- C6: a record whose `status` is a string outside the three known values
makes `parse_status` raise `WrongStatusError('Статус не документирован')`
(the spec's `UnknownStatusError`), and a record with a known status but no
`homework_name` key makes it raise `KeyError('Ключ "homework_name"
отсутствует')` (the spec's `MissingFieldError`); in both cases an error is
signalled and no notification string is returned. -/
theorem c6_unknown_status_and_missing_name :
    (∀ d s, pyGet d "status" = .vstr s → lookupVerdict s = none →
       parse_status (.vdict d) =
         .error (.wrongStatusError "Статус не документирован")) ∧
    (∀ d s v, pyGet d "status" = .vstr s → lookupVerdict s = some v →
       hasKey d "homework_name" = false →
       parse_status (.vdict d) =
         .error (.keyError "Ключ \"homework_name\" отсутствует")) := by
  constructor
  · intro d s h1 h2
    simp [parse_status, h1, h2]
  · intro d s v h1 h2 h3
    simp [parse_status, h1, h2, h3]

/-- Witness for C6: the unknown status `archived`, and an `approved` record
with no `homework_name` key. -/
theorem c6_unknown_status_and_missing_name_witness :
    parse_status (.vdict [("status", .vstr "archived")]) =
      .error (.wrongStatusError "Статус не документирован") ∧
    parse_status (.vdict [("status", .vstr "approved")]) =
      .error (.keyError "Ключ \"homework_name\" отсутствует") :=
  ⟨c6_unknown_status_and_missing_name.1 [("status", .vstr "archived")]
     "archived" rfl rfl,
   c6_unknown_status_and_missing_name.2 [("status", .vstr "approved")]
     "approved" "Работа проверена: ревьюеру всё понравилось. Ура!"
     rfl rfl rfl⟩

/-- C10: when the `homework_name` key is present but holds `None`, the code
only tests key presence, so `parse_status` still returns the formatted string,
rendering the value as `None`. -/
theorem c10_null_homework_name_is_rendered (d : List (String × Value))
    (s verdict : String)
    (hstat : pyGet d "status" = .vstr s)
    (hv : lookupVerdict s = some verdict)
    (hkey : hasKey d "homework_name" = true)
    (hname : pyGet d "homework_name" = .vnull) :
    parse_status (.vdict d) =
      .ok ("Изменился статус проверки работы \"None\". " ++ verdict) := by
  simp [parse_status, hstat, hv, hkey, hname, pyStr, pyRepr]

/-- Witness for C10: a rejected record whose `homework_name` is `None`. -/
theorem c10_null_homework_name_is_rendered_witness :
    parse_status (.vdict [("status", .vstr "rejected"),
        ("homework_name", .vnull)]) =
      .ok ("Изменился статус проверки работы \"None\". " ++
           "Работа проверена: у ревьюера есть замечания.") :=
  c10_null_homework_name_is_rendered
    [("status", .vstr "rejected"), ("homework_name", .vnull)]
    "rejected" "Работа проверена: у ревьюера есть замечания."
    rfl rfl rfl rfl

/-- Loop state whose cursor already stands at 100. -/
def stHigh : LoopState :=
  { timestamp := .vint 100, error_message := none, nextId := 0 }

/-- A validated envelope whose `current_date` (50) lies before the cursor. -/
def envBackdate : Value :=
  .vdict [("current_date", .vint 50),
          ("homeworks", .vlist [.vdict [("status", .vstr "approved"),
                                        ("homework_name", .vstr "hw1")]])]

/-- C8 counterexample: the claim says the cursor is monotonic non-decreasing.
The code assigns `timestamp = response['current_date']` with no clamp, so a
successfully validated envelope carrying `current_date = 50` moves a cursor
standing at 100 backwards. -/
theorem c8_cursor_moves_backward :
    check_response envBackdate =
      .ok [.vdict [("status", .vstr "approved"),
                   ("homework_name", .vstr "hw1")]] ∧
    stHigh.timestamp = .vint 100 ∧
    (mainStep stHigh (.response 200 envBackdate)).1.timestamp = .vint 50 ∧
    (50 : Int) < 100 :=
  ⟨rfl, rfl, rfl, by decide⟩

/-- C8 amended: the cursor changes only in iterations in which the fetch
succeeded, `check_response` validated the envelope with a non-empty homeworks
list, `parse_status` succeeded on its head, and the envelope carried a
`current_date` key; the new cursor is exactly that `current_date` value
(which the code does not compare against the old cursor). -/
theorem c8_cursor_assignment_requires_validation (st : LoopState)
    (o : HttpOutcome)
    (hch : (mainStep st o).1.timestamp ≠ st.timestamp) :
    ∃ body hw tl v,
      get_api_answer o = .ok body ∧
      check_response body = .ok (hw :: tl) ∧
      (∃ text, parse_status hw = .ok text) ∧
      pySubscript body "current_date" = .ok v ∧
      (mainStep st o).1.timestamp = v := by
  cases hG : get_api_answer o with
  | error e =>
    exfalso; apply hch
    simp only [mainStep, tryBody, hG]
    split <;> rfl
  | ok body =>
    cases hC : check_response body with
    | error e =>
      exfalso; apply hch
      simp only [mainStep, tryBody, hG, hC]
      split <;> rfl
    | ok homeworks =>
      cases homeworks with
      | nil =>
        exfalso; apply hch
        simp only [mainStep, tryBody, hG, hC]
      | cons hw tl =>
        cases hP : parse_status hw with
        | error e =>
          exfalso; apply hch
          simp only [mainStep, tryBody, hG, hC, hP]
          split <;> rfl
        | ok text =>
          cases hS : pySubscript body "current_date" with
          | error e =>
            exfalso; apply hch
            simp only [mainStep, tryBody, hG, hC, hP, hS]
            split <;> rfl
          | ok v =>
            refine ⟨body, hw, tl, v, rfl, hC, ⟨text, hP⟩, hS, ?_⟩
            simp only [mainStep, tryBody, hG, hC, hP, hS]

/-- Witness for C8's amended statement: on `stHigh` and `envBackdate` the
cursor does change, and the theorem recovers the validated envelope and its
`current_date`. -/
theorem c8_cursor_assignment_requires_validation_witness :
    (mainStep stHigh (.response 200 envBackdate)).1.timestamp ≠
      stHigh.timestamp ∧
    (∃ body hw tl v,
      get_api_answer (.response 200 envBackdate) = .ok body ∧
      check_response body = .ok (hw :: tl) ∧
      (∃ text, parse_status hw = .ok text) ∧
      pySubscript body "current_date" = .ok v ∧
      (mainStep stHigh (.response 200 envBackdate)).1.timestamp = v) :=
  have hne : (mainStep stHigh (.response 200 envBackdate)).1.timestamp ≠
      stHigh.timestamp :=
    fun h => absurd (Value.vint.inj h) (by decide)
  ⟨hne, c8_cursor_assignment_requires_validation stHigh
    (.response 200 envBackdate) hne⟩

/-- C9: on a successfully fetched envelope that validates to an empty
homeworks list, the iteration calls the Notifier with nothing and raises no
error: the loop state is returned unchanged (cursor, stored error and
allocation counter all untouched). -/
theorem c9_empty_homeworks_silent (st : LoopState) (body : Value)
    (hv : check_response body = .ok []) :
    mainStep st (.response 200 body) = (st, []) := by
  simp [mainStep, tryBody, get_api_answer, hv]

/-- Envelope with an empty homeworks list. -/
def envEmptyHw : Value :=
  .vdict [("current_date", .vint 1), ("homeworks", .vlist [])]

/-- Witness for C9: the empty envelope leaves the startup state untouched
and produces no notification. -/
theorem c9_empty_homeworks_silent_witness :
    check_response envEmptyHw = .ok [] ∧
    mainStep (initState 7) (.response 200 envEmptyHw) = (initState 7, []) :=
  ⟨rfl, c9_empty_homeworks_silent (initState 7) envEmptyHw rfl⟩
